import Mathlib

/-!
Verification of the AIWolfGame engine (src/game/game_controller.py,
src/game/roles.py, src/game/ai_players.py) against its natural-language
specification.  The Python code is shallowly embedded: the mutable game
state becomes an explicit `GState` record, each phase of the controller
becomes a state-passing function, the AI agents' decisions (which in the
source come back from an LLM call) become explicit function arguments, and
`random.choice` takes its draw as an explicit natural number.  Runtime
exceptions of the source (the `TypeError` raised by the seer path, the
`KeyError` raised by dictionary lookups of unknown ids) are modelled as an
explicit crash flag that aborts the night phase, exactly where the source
raises.
-/

namespace AIWolf

/-- Role types, from `RoleType` in src/game/roles.py (lines 14-19). -/
inductive RoleType
  | werewolf
  | villager
  | seer
  | witch
  | hunter
deriving DecidableEq, Repr, Inhabited

/-- The mutable per-role state of the Python role classes in
src/game/roles.py, flattened into one record: `is_alive` lives on
`BaseRole`; `checked_players` (a set of ids, with no stored result) on
`Seer`; the potion flags on `Witch`; `can_shoot` / `death_confirmed` on
`Hunter`.  Fields of roles other than the record's `roleType` keep their
initial values and are never read, mirroring the Python objects. -/
structure RoleState where
  roleType : RoleType
  isAlive : Bool := true
  checkedPlayers : List String := []
  hasPoison : Bool := true
  hasMedicine : Bool := true
  usedMedicineThisRound : Bool := false
  canShoot : Bool := true
  deathConfirmed : Bool := false
deriving DecidableEq, Repr, Inhabited

/-- BaseRole.is_wolf (roles.py lines 30-32). -/
def isWolf (r : RoleState) : Bool :=
  r.roleType == RoleType.werewolf

/-- One entry of the controller's `self.players` dict: the key (player id)
together with the role object's `name` and state.  The list keeps the
dict's insertion order, which is the iteration order of every
`self.players.items()` loop in the source. -/
structure Player where
  pid : String
  name : String
  role : RoleState
deriving DecidableEq, Repr

/-- History entries appended to `game_state["history"]`, restricted to the
events the claims are about (night, death and last-words records). -/
inductive Event
  | wolfIdentify (round : Nat) (opinions : List (String × String × Option String))
  | seerCheck (round : Nat) (seer target : String) (isWolfResult : Bool)
  | witchAction (round : Nat) (witch actionType : String) (target : Option String) (success : Bool)
  | death (round : Nat) (phase player reason : String)
  | lastWords (round : Nat) (phase player content : String)
deriving DecidableEq, Repr

/-- The engine state mutated by GameController: `current_round`,
`game_state["phase"]`, the `self.players` roster, `game_state["history"]`,
the two `game_state["alive_count"]` counters (Python ints, so they may go
negative), `game_state["seer_checks"]` and `game_state["discussions"]`
(speaker name and content, appended by the agents' discuss calls). -/
structure GState where
  currentRound : Nat
  phase : String
  players : List Player
  history : List Event
  aliveWerewolf : Int
  aliveVillager : Int
  seerChecks : List (String × String × Bool)
  discussions : List (String × String)
deriving DecidableEq, Repr

/-- Lookup in the `self.players` dict. -/
def findPlayer (ps : List Player) (pid : String) : Option Player :=
  ps.find? (fun p => p.pid == pid)

/-- Role state of `self.players[pid]`.  The source raises KeyError for an
absent id; the modelled runs only ever call this with a present id. -/
def playerRole (ps : List Player) (pid : String) : RoleState :=
  ((findPlayer ps pid).map Player.role).getD default

/-- Name of `self.players[pid]` (same KeyError caveat as `playerRole`). -/
def playerName (ps : List Player) (pid : String) : String :=
  ((findPlayer ps pid).map Player.name).getD ""

/-- Apply an update to the role object stored under `pid`. -/
def updateRole (ps : List Player) (pid : String) (f : RoleState → RoleState) : List Player :=
  ps.map (fun p => if p.pid == pid then { p with role := f p.role } else p)

/-- Truthiness of an `Optional[str]` in Python: `None` and the empty string
are falsy. -/
def truthy : Option String → Bool
  | some s => !(s == "")
  | none => false

/-- The ids of the living werewolves, as collected at the start of
night_phase (game_controller.py lines 532-533). -/
def livingWolfIds (ps : List Player) : List String :=
  (ps.filter (fun p => isWolf p.role && p.role.isAlive)).map (fun p => p.pid)

/-- The ids of the living seers (lines 534-535). -/
def livingSeerIds (ps : List Player) : List String :=
  (ps.filter (fun p => p.role.roleType == RoleType.seer && p.role.isAlive)).map (fun p => p.pid)

/-- The ids of the living witches (lines 536-537). -/
def livingWitchIds (ps : List Player) : List String :=
  (ps.filter (fun p => p.role.roleType == RoleType.witch && p.role.isAlive)).map (fun p => p.pid)

/-- The number of living werewolves actually on the roster: the right-hand
side of the spec's counter invariant for `aliveCount.wolf`. -/
def livingWolfCount (ps : List Player) : Nat :=
  (ps.filter (fun p => isWolf p.role && p.role.isAlive)).length

/-- The number of living non-werewolves actually on the roster: the
right-hand side of the spec's counter invariant for `aliveCount.village`. -/
def livingVillagerCount (ps : List Player) : Nat :=
  (ps.filter (fun p => !(isWolf p.role) && p.role.isAlive)).length

/-- GameController._handle_death (lines 738-764): set the role dead,
decrement the matching alive counter and append a death record.  The player
is looked up with no check that it is still alive — the double-kill slip
the invariant claims rule out.  An id absent from the roster would raise
KeyError in the source; the model leaves the state unchanged there (the
modelled runs never reach that case). -/
def handleDeath (gs : GState) (pid reason : String) : GState :=
  match findPlayer gs.players pid with
  | none => gs
  | some p =>
    { gs with
      players := updateRole gs.players pid (fun r => { r with isAlive := false }),
      aliveWerewolf := if isWolf p.role then gs.aliveWerewolf - 1 else gs.aliveWerewolf,
      aliveVillager := if isWolf p.role then gs.aliveVillager else gs.aliveVillager - 1,
      history := gs.history ++
        [Event.death gs.currentRound (if gs.phase == "night" then "night" else "day") pid reason] }

/-- Result dict of WerewolfAgent.discuss at night (ai_players.py lines
603-636): a `type` field, the free-text content, and the target extracted
from the response (`None` when extraction fails). -/
structure WolfDecision where
  rtype : String
  content : String
  target : Option String
deriving DecidableEq, Repr

/-- The wolf opinions collected in night_phase lines 554-568: one entry per
wolf whose result has type "kill", carrying the wolf's name, the content
and the (possibly null) target. -/
def wolfOpinions (ps : List Player) (wolves : List String) (dec : String → WolfDecision) :
    List (String × String × Option String) :=
  wolves.foldl
    (fun acc w =>
      let r := dec w
      if r.rtype == "kill" then acc ++ [(playerName ps w, r.content, r.target)] else acc)
    []

/-- The `wolf_targets` list of night_phase lines 552-563: the non-null
targets of the "kill" results, in wolf iteration order. -/
def wolfTargets (wolves : List String) (dec : String → WolfDecision) : List String :=
  wolves.foldl
    (fun acc w =>
      let r := dec w
      if r.rtype == "kill" then
        match r.target with
        | some t => if t == "" then acc else acc ++ [t]
        | none => acc
      else acc)
    []

/-- Python `random.choice` on a list, the random draw made an explicit
argument: the element at index `draw mod length`.  The source only calls it
on a non-empty list. -/
def randomChoice (l : List α) (draw : Nat) : Option α :=
  l.get? (draw % l.length)

/-- The werewolf block of night_phase (lines 545-586): collect the wolves'
opinions and targets; on round 1 append a `wolf_identify` history entry and
keep `victim_id = None`; on later rounds pick the victim with
`random.choice(wolf_targets)` (line 585).  Returns the updated state and
`victim_id`. -/
def wolfSection (gs : GState) (dec : String → WolfDecision) (draw : Nat) :
    GState × Option String :=
  let wolves := livingWolfIds gs.players
  if wolves.isEmpty then (gs, none)
  else
    let targets := wolfTargets wolves dec
    if gs.currentRound == 1 then
      ({ gs with history := gs.history ++
          [Event.wolfIdentify gs.currentRound (wolfOpinions gs.players wolves dec)] }, none)
    else if targets.isEmpty then (gs, none)
    else (gs, randomChoice targets draw)

/-- Result dict of SeerAgent.check_player (ai_players.py lines 804-826). -/
structure CheckDecision where
  rtype : String
  target : Option String
deriving DecidableEq, Repr

/-- Seer.can_check (roles.py lines 51-68): consults only the seer's own
aliveness.  The target id is received but never examined — a dead target,
or an id not on the roster at all, passes the gate. -/
def canCheck (seer : RoleState) (_targetId : String) : Bool :=
  seer.isAlive

/-- Seer.check_role (roles.py lines 70-73): a ONE-argument method that adds
the target id to the `checked_players` set.  No is-wolf result is stored —
the set holds bare ids. -/
def checkRole (s : RoleState) (targetId : String) : RoleState :=
  { s with checkedPlayers :=
      if s.checkedPlayers.contains targetId then s.checkedPlayers
      else s.checkedPlayers ++ [targetId] }

/-- The seer block of night_phase (lines 588-631), reduced to its reachable
effect.  For each living seer whose result has type "check" and a truthy
target, the source passes `can_check`, looks the target up
(`self.players[target_id]`, KeyError for an unknown id) and then calls
`seer.check_role(target_id, is_wolf)` — two arguments to a one-parameter
method, an unconditional TypeError.  So a performed check always raises
before any state is mutated (the `seer_checks` store and the history append
of lines 612-627 are dead code); the function returns the crash flag. -/
def seerLoop (gs : GState) (dec : String → CheckDecision) : List String → Bool
  | [] => false
  | sid :: rest =>
    let r := dec sid
    if r.rtype == "check" && truthy r.target then
      if canCheck (playerRole gs.players sid) (r.target.getD "") then true
      else seerLoop gs dec rest
    else seerLoop gs dec rest

/-- The seer block over the living seers; `true` means the night crashed. -/
def seerSection (gs : GState) (dec : String → CheckDecision) : Bool :=
  seerLoop gs dec (livingSeerIds gs.players)

/-- Result dict of WitchAgent.use_potion (ai_players.py lines 883-907): at
most one of "save", "poison" or "skip" as its type; `target` is absent
(`none`) for "skip" and "save" carries the victim. -/
structure PotionDecision where
  rtype : String
  target : Option String
deriving DecidableEq, Repr

/-- Witch.can_save (roles.py lines 82-100); the `is_first_night` argument
is received and ignored by the source. -/
def canSave (w : RoleState) (_isFirstNight : Bool) : Bool :=
  w.isAlive && w.hasMedicine && !w.usedMedicineThisRound

/-- Witch.can_poison (roles.py lines 102-120); the first-night branch only
prints a warning and still returns True. -/
def canPoison (w : RoleState) (_isFirstNight : Bool) : Bool :=
  w.isAlive && w.hasPoison

/-- Witch.use_medicine (roles.py lines 122-126). -/
def useMedicine (w : RoleState) : RoleState :=
  { w with hasMedicine := false, usedMedicineThisRound := true }

/-- Witch.use_poison (roles.py lines 128-131). -/
def usePoison (w : RoleState) : RoleState :=
  { w with hasPoison := false }

/-- Witch.reset_round (roles.py lines 133-135). -/
def resetRound (w : RoleState) : RoleState :=
  { w with usedMedicineThisRound := false }

/-- The per-witch branch of night_phase lines 644-673, applied to one
use_potion result: a "save" result with `can_save` true uses the medicine
and saves the victim; otherwise a "poison" result with a truthy target and
`can_poison` true uses the poison on that target; anything else does
nothing.  Returns the witch's updated role, whether the victim was saved by
this call, and the target poisoned by this call. -/
def witchResolveOne (w : RoleState) (isFirstNight : Bool) (r : PotionDecision) :
    RoleState × Bool × Option String :=
  if r.rtype == "save" then
    if canSave w isFirstNight then (useMedicine w, true, none) else (w, false, none)
  else if r.rtype == "poison" && truthy r.target then
    if canPoison w isFirstNight then (usePoison w, false, r.target) else (w, false, none)
  else (w, false, none)

/-- Whether a single use_potion result applied both the medicine and the
poison. -/
def bothPotionsApplied (w : RoleState) (isFirstNight : Bool) (r : PotionDecision) : Bool :=
  (witchResolveOne w isFirstNight r).2.1 && (witchResolveOne w isFirstNight r).2.2.isSome

/-- The witch block of night_phase (lines 636-689), run only when a victim
exists: fold the per-witch branch over the living witches, accumulate
`saved_by_witch` and `poisoned_by_witch`, append a `witch_action` history
entry per witch (its `success` field reads the accumulators after the
branch, line 683) and reset the witch's round state (line 687). -/
def witchSection (gs0 : GState) (dec : String → PotionDecision) :
    GState × Bool × Option String :=
  (livingWitchIds gs0.players).foldl
    (fun acc wid =>
      let gs := acc.1
      let saved := acc.2.1
      let poisoned := acc.2.2
      let r := dec wid
      let res := witchResolveOne (playerRole gs.players wid) (gs.currentRound == 1) r
      let saved2 := saved || res.2.1
      let poisoned2 := if res.2.2.isSome then res.2.2 else poisoned
      ({ gs with
          players := updateRole gs.players wid (fun _ => resetRound res.1),
          history := gs.history ++
            [Event.witchAction gs.currentRound wid r.rtype r.target
              (saved2 || poisoned2.isSome)] },
        saved2, poisoned2))
    (gs0, false, none)

/-- The `night_deaths` list built in lines 691-700: the wolves' victim when
not saved, then the witch's poison target. -/
def nightDeathsList (victim : Option String) (saved : Bool) (poisoned : Option String) :
    List (String × String) :=
  (match victim, saved with
   | some v, false => [(v, "被狼人杀死")]
   | _, _ => []) ++
  (match poisoned with
   | some p => [(p, "被毒死")]
   | none => [])

/-- Result dict of HunterAgent.shoot (ai_players.py lines 977-987). -/
structure ShootDecision where
  rtype : String
  target : Option String
deriving DecidableEq, Repr

/-- The hunter branch of the night death loop (lines 706-736): confirm the
hunter's death, and if it can still shoot, take its shoot decision; a
"shoot" result naming a living roster member fires the gun and kills that
target through `_handle_death`.  This branch exists ONLY in the night death
loop — `kill_player`, used for vote eliminations, has no counterpart. -/
def hunterPart (gs : GState) (pid : String) (dec : String → ShootDecision) : GState :=
  let gs1 := { gs with players := updateRole gs.players pid (fun r => { r with deathConfirmed := true }) }
  let hunter := playerRole gs1.players pid
  if hunter.deathConfirmed && hunter.canShoot then
    let r := dec pid
    if r.rtype == "shoot" && truthy r.target then
      let t := r.target.getD ""
      match findPlayer gs1.players t with
      | some tp =>
        if tp.role.isAlive then
          handleDeath
            { gs1 with players := updateRole gs1.players pid (fun r => { r with canShoot := false }) }
            t "被猎人射杀"
        else gs1
      | none => gs1
    else gs1
  else gs1

/-- The night death loop (lines 702-736): `_handle_death` for each entry of
`night_deaths`, followed by the hunter branch when the dead player is a
Hunter. -/
def execNightDeaths (dec : String → ShootDecision) : GState → List (String × String) → GState
  | gs, [] => gs
  | gs, (pid, reason) :: rest =>
    let gs1 := handleDeath gs pid reason
    let gs2 :=
      if (playerRole gs1.players pid).roleType == RoleType.hunter then hunterPart gs1 pid dec
      else gs1
    execNightDeaths dec gs2 rest

/-- GameController.night_phase (lines 525-736) as one state transformer.
The second component is the crash flag: `true` when the source raises (the
seer TypeError, or the KeyError of `self.players[victim_id]` at line 635
for a victim id that is not on the roster), aborting the rest of the
night. -/
def nightPhase (gs0 : GState) (wolfDec : String → WolfDecision)
    (seerDec : String → CheckDecision) (witchDec : String → PotionDecision)
    (shootDec : String → ShootDecision) (draw : Nat) : GState × Bool :=
  let gs := { gs0 with phase := "night" }
  let ws := wolfSection gs wolfDec draw
  if seerSection ws.1 seerDec then (ws.1, true)
  else
    match ws.2 with
    | none => (execNightDeaths shootDec ws.1 [], false)
    | some v =>
      if (findPlayer ws.1.players v).isNone then (ws.1, true)
      else
        let wres := witchSection ws.1 witchDec
        (execNightDeaths shootDec wres.1 (nightDeathsList (some v) wres.2.1 wres.2.2), false)

/-- The last-words condition of kill_player (line 1181): death in round 1,
or death whose reason is the string "公投出局".  The vote phase passes the
different string "投票处决" (line 1151). -/
def lastWordsCond (round : Nat) (reason : String) : Bool :=
  round == 1 || reason == "公投出局"

/-- The death reason the voting phase passes to kill_player (line 1151). -/
def voteExecutionReason : String :=
  "投票处决"

/-- GameController.kill_player (lines 1155-1205): mark the player dead,
decrement the matching counter, grant last words under `lastWordsCond`, and
append the death record.  It contains NO hunter handling: `death_confirmed`
is never set and no shoot decision is requested on this path. -/
def killPlayer (gs : GState) (pid reason : String) (allowLastWords : Bool)
    (lastWordsContent : String) : GState :=
  match findPlayer gs.players pid with
  | none => gs
  | some p =>
    let lw :=
      if allowLastWords && lastWordsCond gs.currentRound reason then
        [Event.lastWords gs.currentRound gs.phase pid lastWordsContent]
      else []
    { gs with
      players := updateRole gs.players pid (fun r => { r with isAlive := false }),
      aliveWerewolf := if isWolf p.role then gs.aliveWerewolf - 1 else gs.aliveWerewolf,
      aliveVillager := if isWolf p.role then gs.aliveVillager else gs.aliveVillager - 1,
      history := gs.history ++ lw ++ [Event.death gs.currentRound gs.phase pid reason] }

/-- GameController.check_game_over (lines 1207-1216), reading the
`alive_count` counters. -/
def checkGameOver (gs : GState) : Bool :=
  if gs.aliveWerewolf == 0 then true
  else if gs.aliveVillager ≤ gs.aliveWerewolf then true
  else false

/-- GameController.announce_winner (lines 1218-1234), reduced to the winner
string it stores: it recomputes faction liveness from the roster, names the
werewolves only when no non-werewolf is left, the villagers when no
werewolf is left, and "draw" otherwise. -/
def announceWinnerName (ps : List Player) : String :=
  let werewolfAlive := ps.any (fun p => isWolf p.role && p.role.isAlive)
  let villagerAlive := ps.any (fun p => !(isWolf p.role) && p.role.isAlive)
  if werewolfAlive && !villagerAlive then "werewolf"
  else if !werewolfAlive then "villager"
  else "draw"

/-- The phases a round of run_game executes (lines 233-296), labelled. -/
inductive PhaseStep
  | nightStep
  | discussionStep
  | voteStep
  | trustStep
  | saveStep
deriving DecidableEq, Repr

/-- GameController.day_phase (lines 766-776): a discussion followed by a
FULL voting phase (`self.voting_phase()` at line 776). -/
def dayPhaseSteps : List PhaseStep :=
  [PhaseStep.discussionStep, PhaseStep.voteStep]

/-- One iteration of the run_game loop (lines 233-296): night, a terminal
check, day_phase, trust collection, a terminal check, voting_phase AGAIN
(line 269), a terminal check, and the round-data save before the round
counter increments.  The three booleans say which terminal check fired. -/
def roundSteps (overAfterNight overAfterDay overAfterVote : Bool) : List PhaseStep :=
  [PhaseStep.nightStep] ++
  (if overAfterNight then [] else
    dayPhaseSteps ++ [PhaseStep.trustStep] ++
    (if overAfterDay then [] else
      [PhaseStep.voteStep] ++ (if overAfterVote then [] else [PhaseStep.saveStep])))

/-- Helper: build a player with fresh role state. -/
def mkPlayer (pid name : String) (rt : RoleType) (alive : Bool) : Player :=
  { pid := pid, name := name, role := { roleType := rt, isAlive := alive } }

/-!
The decision-request inputs of the AI players (src/game/ai_players.py).
Each agent method builds one prompt string from the game state, its own
role object and its own agent-local memory, and sends exactly that string
to the model.  The builders below are translated from the `_generate_*`
methods; the indentation whitespace of the Python triple-quoted literals is
not reproduced, and Python's list repr is rendered by `pyStrList`.
-/

/-- Python repr of a string (single quotes). -/
def pyQuote (s : String) : String :=
  "\x27" ++ s ++ "\x27"

/-- Python repr of a list of strings. -/
def pyStrList (xs : List String) : String :=
  "[" ++ String.intercalate ", " (xs.map pyQuote) ++ "]"

/-- The living players rendered as `name(pid)`, as every prompt builder
lists them from `game_state["players"]`. -/
def aliveNameIds (ps : List Player) : List String :=
  (ps.filter (fun p => p.role.isAlive)).map (fun p => p.name ++ "(" ++ p.pid ++ ")")

/-- The living players excluding `selfName`, for the vote prompt (line 392
compares each player id against the voter's NAME, a quirk kept here). -/
def aliveNameIdsExcept (ps : List Player) (selfName : String) : List String :=
  (ps.filter (fun p => p.role.isAlive && !(p.pid == selfName))).map
    (fun p => p.name ++ "(" ++ p.pid ++ ")")

/-- One record of an agent's `Memory.conversations` list. -/
structure ConvRecord where
  round : Nat
  phase : String
  speaker : String
  content : String
  target : String
deriving DecidableEq, Repr

/-- The agent-local Memory object (ai_players.py lines 19-145), reduced to
the conversation list the prompt builders read. -/
structure Memory where
  conversations : List ConvRecord
deriving DecidableEq, Repr

/-- How Memory.get_all_conversations formats one record (lines 138-143). -/
def formatConv (c : ConvRecord) : List String :=
  if c.phase == "discussion" then [c.speaker ++ "说：" ++ c.content]
  else if c.phase == "vote" then [c.speaker ++ "投票给了" ++ c.target ++ "，理由：" ++ c.content]
  else if c.phase == "death" then [c.speaker ++ "的遗言：" ++ c.content]
  else []

/-- The round-header fold of Memory.get_all_conversations (lines 129-144). -/
def convLines : Option Nat → List ConvRecord → List String
  | _, [] => []
  | cur, c :: rest =>
    (if cur == some c.round then [] else ["\n=== 第 " ++ toString c.round ++ " 回合 ===\n"]) ++
    formatConv c ++ convLines (some c.round) rest

/-- Memory.get_all_conversations (lines 124-145). -/
def getAllConversations (m : Memory) : String :=
  if m.conversations.isEmpty then "暂无历史记录"
  else String.intercalate "\n" (convLines none m.conversations)

/-- Memory.get_recent_conversations (lines 115-122): the last five records,
keeping the discussion-phase ones. -/
def getRecentConversations (m : Memory) : List String :=
  ((m.conversations.drop (m.conversations.length - 5)).filter
      (fun c => c.phase == "discussion")).map
    (fun c => c.speaker ++ "说：" ++ c.content)

/-- BaseAIAgent._format_discussions (lines 310-318), over
`game_state["discussions"]` (speaker, content). -/
def formatDiscussions (ds : List (String × String)) : String :=
  if ds.isEmpty then "暂无讨论记录"
  else String.intercalate "\n" (ds.map (fun d => d.1 ++ " 说：" ++ d.2))

/-- BaseAIAgent._generate_action_prompt (lines 299-308). -/
def generateActionPrompt : String :=
  "请在发言时加入动作和表情描写，要求：\n1. 用【】包裹动作和表情\n2. 描写要生动形象，符合角色身份\n3. 至少20个字的动作描写\n4. 动作要自然地融入发言中\n5. 表现出说话时的情绪变化"

/-- BaseAIAgent._generate_discussion_prompt (lines 362-385): the input of a
villager's (and, with role-local extensions, a god role's) discuss call.
It reads the round, the living roster, the agent's own role and memory and
`game_state["discussions"]` — and nothing else of the game state. -/
def generateDiscussionPrompt (gs : GState) (roleVal roleName : String) (mem : Memory) : String :=
  generateActionPrompt ++
  "\n\n当前游戏状态:\n- 回合: " ++ toString gs.currentRound ++
  "\n- 存活玩家: " ++ pyStrList (aliveNameIds gs.players) ++
  "\n- 你的身份: " ++ roleVal ++ " " ++ roleName ++
  "\n\n当前回合的讨论记录：\n" ++ formatDiscussions gs.discussions ++
  "\n\n历史记录：\n" ++ getAllConversations mem ++
  "\n\n请根据以上信息，作为" ++ roleVal ++
  "，发表你的看法：\n1. 分析其他玩家的行为和发言，找出可疑之处\n2. 给出你的推理过程和判断依据\n3. 表达对局势的看法\n4. 发言要超过100字\n5. 记得加入动作描写【】"

/-- BaseAIAgent._generate_vote_prompt (lines 387-410): the input of a vote
call.  Reads the round, the living roster (minus the voter), role and
memory. -/
def generateVotePrompt (gs : GState) (roleVal roleName : String) (mem : Memory) : String :=
  "当前游戏状态:\n- 回合: " ++ toString gs.currentRound ++
  "\n- 存活玩家: " ++ pyStrList (aliveNameIdsExcept gs.players roleName) ++
  "\n- 你的身份: " ++ roleVal ++ " " ++ roleName ++
  "\n\n完整对话记录：\n" ++ getAllConversations mem ++
  "\n\n请详细说明你要投票给谁，以及投票的理由。注意：不能投票给自己！\n\n要求：\n1. 分析局势，给出合理的投票理由\n2. 考虑其他玩家的发言和行为\n3. 使用\x22我选择[player数字]\x22或\x22选择[player数字]\x22这样的格式来明确指出你的投票目标\n4. player ID必须是完整的格式，如player1、player2等\n5. 不能选择自己作为投票目标\n6. 给出充分的理由，至少50字"

/-- WitchAgent._generate_potion_prompt (lines 918-938): the input of a
use_potion call.  Reads the round, the living roster, the witch's own
potion flags and the victim's name. -/
def generatePotionPrompt (gs : GState) (w : RoleState) (victim : Option String) : String :=
  "当前游戏状态:\n- 回合: " ++ toString gs.currentRound ++
  "\n- 存活玩家: " ++ pyStrList (aliveNameIds gs.players) ++
  "\n- 解药状态: " ++ (if canSave w false then "可用" else "已用") ++
  "\n- 毒药状态: " ++ (if canPoison w false then "可用" else "已用") ++
  (if truthy victim && canSave w false then
    "\n今晚的遇害者是：" ++ playerName gs.players (victim.getD "") ++ "(" ++ victim.getD "" ++ ")"
   else "") ++
  "\n请决定：\n1. 是否使用解药救人\n2. 是否使用毒药杀人\n3. 给出详细的理由\n4. 使用\x22使用解药\x22或\x22使用毒药 选择[玩家ID]\x22格式"

/-- HunterAgent._generate_shoot_prompt (lines 998-1010): the input of a
shoot call.  Reads the round, the living roster and the hunter's memory. -/
def generateShootPrompt (gs : GState) (mem : Memory) : String :=
  "当前游戏状态:\n- 回合: " ++ toString gs.currentRound ++
  "\n- 存活玩家: " ++ pyStrList (aliveNameIds gs.players) ++
  "\n- 历史记录: " ++ pyStrList (getRecentConversations mem) ++
  "\n\n你即将死亡，请决定开枪打死谁：\n1. 分析每个玩家的行为\n2. 考虑历史发言内容\n3. 给出详细的理由\n4. 用\x22选择[玩家ID]\x22格式说明射击目标"

/-- WerewolfAgent._generate_discussion_prompt (lines 651-683): the input of
a wolf's discuss call (night kill discussion or day speech).  Reads the
round, the living roster, the wolf's teammates' names, its memory and the
phase. -/
def generateWolfDiscussionPrompt (gs : GState) (roleName : String) (team : List String)
    (mem : Memory) : String :=
  generateActionPrompt ++
  "\n\n当前游戏状态:\n- 回合: " ++ toString gs.currentRound ++
  "\n- 存活玩家: " ++ pyStrList (aliveNameIds gs.players) ++
  "\n- 你的身份: 狼人 " ++ roleName ++
  "\n- 你的队友: " ++ pyStrList (team.map (playerName gs.players)) ++
  "\n- 历史记录: " ++ pyStrList (getRecentConversations mem) ++
  (if gs.phase == "night" then
    "\n作为狼人，请讨论今晚要杀死谁：\n1. 分析每个玩家的威胁程度，但不要说出具体角色\n2. 考虑每个人的行为特征\n3. 给出详细的理由\n4. 发言必须超过20个字\n5. 最后用\x22选择[玩家ID]\x22格式说明你的决定\n6. 不要在发言中透露你已经知道某个玩家的具体身份"
   else
    "\n请以好人的身份发表你的看法：\n1. 分析每个玩家的行为和发言\n2. 表达你对局势的判断\n3. 适当表达怀疑，但不要暴露自己\n4. 发言必须超过20个字\n5. 尝试引导方向，保护队友\n6. 不要在发言中透露你已经知道某个玩家的具体身份")

/-!
Concrete fixtures: small game states and decision functions used by the
counterexamples, the code-bug evidence theorems and the witnesses.
-/

/-- Roster for the wolf-target claims: two living wolves, two living
villagers, round 2. -/
def gsC1 : GState :=
  { currentRound := 2, phase := "night",
    players :=
      [mkPlayer "player1" "张三" RoleType.werewolf true,
       mkPlayer "player5" "李四" RoleType.werewolf true,
       mkPlayer "player2" "王五" RoleType.villager true,
       mkPlayer "player3" "赵六" RoleType.villager true],
    history := [], aliveWerewolf := 2, aliveVillager := 2,
    seerChecks := [], discussions := [] }

/-- Wolf decisions for `gsC1`: the first wolf proposes player2, the second
proposes player3, so the collected target list is [player2, player3]. -/
def decC1 : String → WolfDecision := fun pid =>
  if pid == "player1" then { rtype := "kill", content := "选择player2", target := some "player2" }
  else if pid == "player5" then { rtype := "kill", content := "选择player3", target := some "player3" }
  else { rtype := "discuss", content := "", target := none }

/-- A shoot decision that never fires. -/
def skipShoot : String → ShootDecision := fun _ => { rtype := "skip", target := none }

/-- Roster for the counter-invariant claim: one wolf, three villagers, the
counters in sync. -/
def gsC2 : GState :=
  { currentRound := 2, phase := "night",
    players :=
      [mkPlayer "player1" "甲" RoleType.werewolf true,
       mkPlayer "player2" "乙" RoleType.villager true,
       mkPlayer "player3" "丙" RoleType.villager true,
       mkPlayer "player4" "丁" RoleType.villager true],
    history := [], aliveWerewolf := 1, aliveVillager := 3,
    seerChecks := [], discussions := [] }

/-- The night where the witch's poison target equals the wolves' unsaved
victim: `night_deaths` lists player2 twice and `_handle_death` runs twice
on it. -/
def gsC2after : GState :=
  execNightDeaths skipShoot gsC2 (nightDeathsList (some "player2") false (some "player2"))

/-- Roster for the voted-out-hunter claim: player4 is a living Hunter. -/
def gsC4 : GState :=
  { currentRound := 2, phase := "day",
    players :=
      [mkPlayer "player1" "甲" RoleType.werewolf true,
       mkPlayer "player2" "乙" RoleType.villager true,
       mkPlayer "player3" "丙" RoleType.villager true,
       mkPlayer "player4" "丁" RoleType.hunter true],
    history := [], aliveWerewolf := 1, aliveVillager := 3,
    seerChecks := [], discussions := [] }

/-- The hunter player4 eliminated by vote: `voting_phase` line 1151 calls
`kill_player(voted_out, "投票处决", True)`. -/
def gsC4after : GState :=
  killPlayer gsC4 "player4" voteExecutionReason true "遗言内容"

/-- Roster for the last-words claim, round 2. -/
def gsC6 : GState :=
  { currentRound := 2, phase := "day",
    players :=
      [mkPlayer "player1" "甲" RoleType.werewolf true,
       mkPlayer "player2" "乙" RoleType.villager true,
       mkPlayer "player3" "丙" RoleType.villager true],
    history := [], aliveWerewolf := 1, aliveVillager := 2,
    seerChecks := [], discussions := [] }

/-- The villager player2 voted out in round 2. -/
def gsC6after : GState :=
  killPlayer gsC6 "player2" voteExecutionReason true "遗言内容"

/-- Roster for the seer claim: player3 is a living seer, player2 is
already dead. -/
def gsC7 : GState :=
  { currentRound := 2, phase := "night",
    players :=
      [mkPlayer "player1" "甲" RoleType.werewolf true,
       mkPlayer "player2" "乙" RoleType.villager false,
       mkPlayer "player3" "丙" RoleType.seer true,
       mkPlayer "player4" "丁" RoleType.villager true],
    history := [], aliveWerewolf := 1, aliveVillager := 2,
    seerChecks := [], discussions := [] }

/-- The seer's check decision: check the dead player2. -/
def seerDecC7 : String → CheckDecision := fun pid =>
  if pid == "player3" then { rtype := "check", target := some "player2" }
  else { rtype := "skip", target := none }

/-- An agent memory with one discussion record, for the noninterference
witness. -/
def memC5 : Memory :=
  { conversations :=
      [{ round := 1, phase := "discussion", speaker := "甲", content := "大家好", target := "" }] }

/-- A day state with no recorded seer result. -/
def gsC5a : GState :=
  { currentRound := 2, phase := "day",
    players :=
      [mkPlayer "player1" "甲" RoleType.werewolf true,
       mkPlayer "player2" "乙" RoleType.villager true,
       mkPlayer "player3" "丙" RoleType.seer true,
       mkPlayer "player4" "丁" RoleType.witch true],
    history := [], aliveWerewolf := 1, aliveVillager := 3,
    seerChecks := [], discussions := [("甲", "我觉得player1可疑")] }

/-- The same state after the seer's reveal was recorded into
`game_state["seer_checks"]` and the history: only the secret differs. -/
def gsC5b : GState :=
  { gsC5a with
    seerChecks := [("player3", "player1", true)],
    history := [Event.seerCheck 1 "player3" "player1" true] }

/-- Round-1 state for the round-1-night witness: a wolf, a seer and two
villagers. -/
def gsC9 : GState :=
  { currentRound := 1, phase := "init",
    players :=
      [mkPlayer "player1" "甲" RoleType.werewolf true,
       mkPlayer "player2" "乙" RoleType.villager true,
       mkPlayer "player3" "丙" RoleType.seer true,
       mkPlayer "player4" "丁" RoleType.villager true],
    history := [], aliveWerewolf := 1, aliveVillager := 3,
    seerChecks := [], discussions := [] }

/-- Round-1 wolf decision: the wolf names a target, which round 1 must
discard. -/
def wolfDecC9 : String → WolfDecision := fun pid =>
  if pid == "player1" then { rtype := "kill", content := "选择player2", target := some "player2" }
  else { rtype := "discuss", content := "", target := none }

/-- Round-1 seer decision: a performed check (the TypeError path). -/
def seerDecC9 : String → CheckDecision := fun pid =>
  if pid == "player3" then { rtype := "check", target := some "player1" }
  else { rtype := "skip", target := none }

/-- A use_potion decision that poisons player4 (must have no round-1
effect). -/
def witchDecC9 : String → PotionDecision := fun _ =>
  { rtype := "poison", target := some "player4" }

/-- Parity state for the game-over witness: two living wolves, two living
villagers, counters in sync. -/
def gsC10 : GState :=
  { currentRound := 3, phase := "day",
    players :=
      [mkPlayer "player1" "甲" RoleType.werewolf true,
       mkPlayer "player2" "乙" RoleType.werewolf true,
       mkPlayer "player3" "丙" RoleType.villager true,
       mkPlayer "player4" "丁" RoleType.seer true],
    history := [], aliveWerewolf := 2, aliveVillager := 2,
    seerChecks := [], discussions := [] }

/-!
Helper lemmas shared by several claims.
-/

theorem any_of_one_le_filter_length {α : Type} {l : List α} {f : α → Bool}
    (h : 1 ≤ (l.filter f).length) : l.any f = true := by
  obtain ⟨a, ha⟩ := List.exists_mem_of_length_pos h
  rw [List.mem_filter] at ha
  exact List.any_eq_true.mpr ⟨a, ha.1, ha.2⟩

theorem filter_length_zero_of_any_false {α : Type} {l : List α} {f : α → Bool}
    (h : l.any f = false) : (l.filter f).length = 0 := by
  have hf : l.filter f = [] := by
    apply List.filter_eq_nil_iff.mpr
    intro a hmem hfa
    have := List.any_eq_true.mpr ⟨a, hmem, hfa⟩
    rw [h] at this
    exact Bool.false_ne_true this
  rw [hf]
  rfl

/-!
Claim theorems.
-/

/-- C1, counterexample: the claim says the candidate victim equals the
FIRST non-null target in wolf iteration order and is a deterministic
function of the wolves' decisions and the roster.  On `gsC1` the collected
target list is [player2, player3] (player2 first), yet with random draw 1
`random.choice` picks player3 ≠ player2, and draw 0 picks player2 — the
victim depends on the random draw, not only on decisions and roster. -/
theorem C1_first_target_counterexample :
    wolfTargets (livingWolfIds gsC1.players) decC1 = ["player2", "player3"] ∧
    (wolfSection gsC1 decC1 1).2 = some "player3" ∧
    (wolfSection gsC1 decC1 0).2 = some "player2" ∧
    ("player3" : String) ≠ "player2" := by
  refine ⟨by decide, by decide, by decide, by decide⟩

/-- C1, amended: for a night after round 1, the candidate victim is the
element of the non-null-target list (collected in wolf iteration order)
selected by `random.choice`, i.e. the entry at the random draw modulo the
list length; in particular every chosen victim is a member of that list.
It is deterministic only once the random draw is fixed. -/
theorem C1_victim_is_random_choice_of_targets (gs : GState)
    (dec : String → WolfDecision) (draw : Nat) (h1 : gs.currentRound ≠ 1) :
    (wolfSection gs dec draw).2 =
      (if (wolfTargets (livingWolfIds gs.players) dec).isEmpty then none
       else randomChoice (wolfTargets (livingWolfIds gs.players) dec) draw) ∧
    ∀ v, (wolfSection gs dec draw).2 = some v →
      v ∈ wolfTargets (livingWolfIds gs.players) dec := by
  have hne : (gs.currentRound == 1) = false := by
    simp [h1]
  have hmain : (wolfSection gs dec draw).2 =
      (if (wolfTargets (livingWolfIds gs.players) dec).isEmpty then none
       else randomChoice (wolfTargets (livingWolfIds gs.players) dec) draw) := by
    unfold wolfSection
    by_cases hwe : (livingWolfIds gs.players).isEmpty
    · have hnil : livingWolfIds gs.players = [] := List.isEmpty_iff.mp hwe
      simp [hwe, hnil, wolfTargets]
    · simp only [hwe, Bool.false_eq_true, if_false, hne]
      by_cases hte : (wolfTargets (livingWolfIds gs.players) dec).isEmpty <;> simp [hte]
  refine ⟨hmain, ?_⟩
  intro v hv
  rw [hmain] at hv
  by_cases hte : (wolfTargets (livingWolfIds gs.players) dec).isEmpty
  · rw [if_pos hte] at hv
    exact absurd hv (by simp)
  · rw [if_neg hte] at hv
    exact List.get?_mem hv

/-- C1, witness for the amended theorem at `gsC1` with draw 1. -/
theorem C1_victim_witness :
    (wolfSection gsC1 decC1 1).2 =
      (if (wolfTargets (livingWolfIds gsC1.players) decC1).isEmpty then none
       else randomChoice (wolfTargets (livingWolfIds gsC1.players) decC1) 1) ∧
    ∀ v, (wolfSection gsC1 decC1 1).2 = some v →
      v ∈ wolfTargets (livingWolfIds gsC1.players) decC1 :=
  C1_victim_is_random_choice_of_targets gsC1 decC1 1 (by decide)

/-- C2, code-bug evidence: on the night where the wolves' unsaved victim
player2 (a villager) is also the witch's poison target, `_handle_death`
runs twice for player2, decrementing `alive_count["villager"]` twice: the
counter ends at 1 while 2 non-werewolves are actually alive, violating the
claimed invariant. -/
theorem C2_double_kill_breaks_counter :
    gsC2after.aliveVillager = 1 ∧
    livingVillagerCount gsC2after.players = 2 ∧
    gsC2after.aliveVillager ≠ (livingVillagerCount gsC2after.players : Int) := by
  refine ⟨by decide, by decide, by decide⟩

/-- C3, code-bug evidence: a non-terminal round of run_game executes the
voting phase TWICE — once inside day_phase (line 776) and once directly
(line 269) — while night and discussion each run once; the claim says
exactly one vote phase per round. -/
theorem C3_two_vote_phases_per_round :
    (roundSteps false false false).count PhaseStep.voteStep = 2 ∧
    (roundSteps false false false).count PhaseStep.nightStep = 1 ∧
    (roundSteps false false false).count PhaseStep.discussionStep = 1 := by
  refine ⟨by decide, by decide, by decide⟩

/-- C4, code-bug evidence: the hunter player4 eliminated by vote goes
through kill_player, which marks it dead but never sets `death_confirmed`,
never requests a shoot decision and appends only the death record — no
retaliation ever happens on the vote path, against the claim. -/
theorem C4_voted_out_hunter_never_fires :
    (playerRole gsC4after.players "player4").isAlive = false ∧
    (playerRole gsC4after.players "player4").deathConfirmed = false ∧
    (playerRole gsC4after.players "player4").canShoot = true ∧
    gsC4after.history = [Event.death 2 "day" "player4" voteExecutionReason] := by
  refine ⟨by decide, by decide, by decide, by decide⟩

/-- C5: the seer's is-wolf reveal never reaches another player's decision
input.  Every prompt the engine-driven agents build for discuss, vote,
use_potion and shoot calls reads only the round, the roster, the public
discussion list and the phase; two game states that agree on those four
fields but differ arbitrarily in `game_state["seer_checks"]`, the history
(where the seer_check records live) and the counters produce identical
prompts for every non-seer decision. -/
theorem C5_seer_reveal_noninterference (gs1 gs2 : GState) (roleVal roleName : String)
    (team : List String) (w : RoleState) (victim : Option String) (mem : Memory)
    (hr : gs1.currentRound = gs2.currentRound) (hp : gs1.players = gs2.players)
    (hd : gs1.discussions = gs2.discussions) (hph : gs1.phase = gs2.phase) :
    generateDiscussionPrompt gs1 roleVal roleName mem =
      generateDiscussionPrompt gs2 roleVal roleName mem ∧
    generateVotePrompt gs1 roleVal roleName mem = generateVotePrompt gs2 roleVal roleName mem ∧
    generatePotionPrompt gs1 w victim = generatePotionPrompt gs2 w victim ∧
    generateShootPrompt gs1 mem = generateShootPrompt gs2 mem ∧
    generateWolfDiscussionPrompt gs1 roleName team mem =
      generateWolfDiscussionPrompt gs2 roleName team mem := by
  obtain ⟨r1, ph1, ps1, h1, aw1, av1, sc1, d1⟩ := gs1
  obtain ⟨r2, ph2, ps2, h2, aw2, av2, sc2, d2⟩ := gs2
  dsimp only at hr hp hd hph
  subst hr
  subst hp
  subst hd
  subst hph
  exact ⟨rfl, rfl, rfl, rfl, rfl⟩

/-- C5, witness: a state with a recorded seer reveal (`gsC5b`) and the
same state without it (`gsC5a`) give every non-seer decision the same
prompt. -/
theorem C5_noninterference_witness :
    generateDiscussionPrompt gsC5b "villager" "乙" memC5 =
      generateDiscussionPrompt gsC5a "villager" "乙" memC5 ∧
    generateVotePrompt gsC5b "villager" "乙" memC5 =
      generateVotePrompt gsC5a "villager" "乙" memC5 ∧
    generatePotionPrompt gsC5b (playerRole gsC5b.players "player4") (some "player2") =
      generatePotionPrompt gsC5a (playerRole gsC5b.players "player4") (some "player2") ∧
    generateShootPrompt gsC5b memC5 = generateShootPrompt gsC5a memC5 ∧
    generateWolfDiscussionPrompt gsC5b "乙" ["player1"] memC5 =
      generateWolfDiscussionPrompt gsC5a "乙" ["player1"] memC5 :=
  C5_seer_reveal_noninterference gsC5b gsC5a "villager" "乙" ["player1"]
    (playerRole gsC5b.players "player4") (some "player2") memC5 rfl rfl rfl rfl

/-- C6, code-bug evidence: a player voted out in round 2 gives NO last
words: kill_player grants them only when `current_round == 1` or the
reason equals "公投出局", but voting_phase passes the different string
"投票处决", so the appended history holds only the death record.  The
condition the code tests would grant last words for the never-passed
string. -/
theorem C6_round2_vote_no_last_words :
    gsC6after.history = [Event.death 2 "day" "player2" voteExecutionReason] ∧
    lastWordsCond 2 voteExecutionReason = false ∧
    lastWordsCond 2 "公投出局" = true ∧
    voteExecutionReason ≠ "公投出局" := by
  refine ⟨by decide, by decide, by decide, by decide⟩

/-- C7, code-bug evidence: the gate the engine uses before a reveal,
`Seer.can_check`, consults only the seer's own aliveness — it passes for
the DEAD target player2 — and `Seer.check_role` stores only the bare
target id into `checked_players`, with no is-wolf result; moreover every
performed check crashes the night phase (the source calls
`check_role(target_id, is_wolf)` with two arguments against a
one-parameter signature, an unconditional TypeError), modelled by the raised
crash flag. -/
theorem C7_check_gate_and_store_diverge :
    canCheck (playerRole gsC7.players "player3") "player2" = true ∧
    (playerRole gsC7.players "player2").isAlive = false ∧
    (checkRole (playerRole gsC7.players "player3") "player2").checkedPlayers = ["player2"] ∧
    seerSection gsC7 seerDecC7 = true := by
  refine ⟨by decide, by decide, by decide, by decide⟩

/-- C8, counterexample: no single use_potion response can apply both
potions — the response carries one `type`, and the engine's save and
poison branches are mutually exclusive (`if`/`elif`, lines 644-673), so
"use the medicine on the victim and the poison on a different target in
the same call" is impossible for every witch state and every response. -/
theorem C8_both_potions_impossible :
    ¬ ∃ (w : RoleState) (fn : Bool) (r : PotionDecision),
        bothPotionsApplied w fn r = true := by
  rintro ⟨w, fn, r, h⟩
  unfold bothPotionsApplied witchResolveOne at h
  by_cases hs : (r.rtype == "save")
  · by_cases hc : canSave w fn <;> simp [hs, hc] at h
  · by_cases hp : (r.rtype == "poison" && truthy r.target)
    · by_cases hc : canPoison w fn <;> simp [hs, hp, hc] at h
    · simp [hs, hp] at h

/-- C8, amended: save and poison are each single-use, but within ONE
use_potion response the engine applies at most one of them: a response
never both saves the victim and poisons someone; the medicine is applied
only by a "save" response and the poison only by a "poison" response that
passes `can_poison`. -/
theorem C8_single_response_at_most_one_potion (w : RoleState) (fn : Bool)
    (r : PotionDecision) :
    bothPotionsApplied w fn r = false ∧
    ((witchResolveOne w fn r).2.1 = true → r.rtype = "save") ∧
    (∀ t, (witchResolveOne w fn r).2.2 = some t →
      r.rtype = "poison" ∧ canPoison w fn = true) := by
  refine ⟨?_, ?_, ?_⟩
  · by_cases hb : bothPotionsApplied w fn r = true
    · exact absurd ⟨w, fn, r, hb⟩ C8_both_potions_impossible
    · exact Bool.eq_false_iff.mpr hb
  · intro h
    unfold witchResolveOne at h
    by_cases hs : (r.rtype == "save")
    · exact eq_of_beq hs
    · by_cases hp : (r.rtype == "poison" && truthy r.target)
      · by_cases hc : canPoison w fn <;> simp [hs, hp, hc] at h
      · simp [hs, hp] at h
  · intro t h
    unfold witchResolveOne at h
    by_cases hs : (r.rtype == "save")
    · by_cases hc : canSave w fn <;> simp [hs, hc] at h
    · by_cases hp : (r.rtype == "poison" && truthy r.target)
      · by_cases hc : canPoison w fn
        · rw [Bool.and_eq_true] at hp
          exact ⟨eq_of_beq hp.1, hc⟩
        · simp [hs, hp, hc] at h
      · simp [hs, hp] at h

theorem wolfSection_players_eq (gs : GState) (wd : String → WolfDecision) (draw : Nat) :
    (wolfSection gs wd draw).1.players = gs.players := by
  unfold wolfSection
  by_cases hwe : (livingWolfIds gs.players).isEmpty <;>
    by_cases hr : (gs.currentRound == 1) <;>
      by_cases hte : (wolfTargets (livingWolfIds gs.players) wd).isEmpty <;>
        simp [hwe, hr, hte]

theorem wolfSection_round1_snd (gs : GState) (wd : String → WolfDecision) (draw : Nat)
    (h : gs.currentRound = 1) : (wolfSection gs wd draw).2 = none := by
  have hb : (gs.currentRound == 1) = true := by simp [h]
  unfold wolfSection
  by_cases hwe : (livingWolfIds gs.players).isEmpty <;> simp [hwe, hb]

theorem wolfSection_round1_history (gs : GState) (wd : String → WolfDecision) (draw : Nat)
    (h : gs.currentRound = 1) :
    (wolfSection gs wd draw).1.history =
      gs.history ++
        (if (livingWolfIds gs.players).isEmpty then []
         else [Event.wolfIdentify gs.currentRound
            (wolfOpinions gs.players (livingWolfIds gs.players) wd)]) := by
  have hb : (gs.currentRound == 1) = true := by simp [h]
  unfold wolfSection
  by_cases hwe : (livingWolfIds gs.players).isEmpty <;> simp [hwe, hb]

/-- C9: on round 1 the night phase kills nobody, whatever the agents
decide: the roster (hence every alive flag) is returned unchanged, and the
only history entry the night appends is the `wolf_identify` record of the
wolves' opinions (present whenever a living wolf exists) — no wolf_kill,
no poison casualty and no hunter retaliation. -/
theorem C9_round1_night_is_harmless (gs0 : GState) (wd : String → WolfDecision)
    (sd : String → CheckDecision) (pd : String → PotionDecision)
    (hd : String → ShootDecision) (draw : Nat) (h1 : gs0.currentRound = 1) :
    (nightPhase gs0 wd sd pd hd draw).1.players = gs0.players ∧
    (nightPhase gs0 wd sd pd hd draw).1.history =
      gs0.history ++
        (if (livingWolfIds gs0.players).isEmpty then []
         else [Event.wolfIdentify gs0.currentRound
            (wolfOpinions gs0.players (livingWolfIds gs0.players) wd)]) := by
  have h1n : ({ gs0 with phase := "night" } : GState).currentRound = 1 := h1
  have hsnd := wolfSection_round1_snd { gs0 with phase := "night" } wd draw h1n
  have hpl := wolfSection_players_eq { gs0 with phase := "night" } wd draw
  have hhist := wolfSection_round1_history { gs0 with phase := "night" } wd draw h1n
  simp only [nightPhase]
  rw [hsnd]
  by_cases hcr : seerSection (wolfSection { gs0 with phase := "night" } wd draw).1 sd <;>
    simp [hcr, execNightDeaths, hpl, hhist]

/-- C9, witness: the round-1 night of `gsC9`, with the wolf naming a
victim, a performed seer check and a poisoning witch decision, leaves the
roster unchanged and appends exactly the wolf_identify record. -/
theorem C9_round1_witness :
    (nightPhase gsC9 wolfDecC9 seerDecC9 witchDecC9 skipShoot 0).1.players = gsC9.players ∧
    (nightPhase gsC9 wolfDecC9 seerDecC9 witchDecC9 skipShoot 0).1.history =
      gsC9.history ++
        (if (livingWolfIds gsC9.players).isEmpty then []
         else [Event.wolfIdentify gsC9.currentRound
            (wolfOpinions gsC9.players (livingWolfIds gsC9.players) wolfDecC9)]) :=
  C9_round1_night_is_harmless gsC9 wolfDecC9 seerDecC9 witchDecC9 skipShoot 0 rfl

/-- C10: when the living werewolves are at least as many as the living
non-werewolves while both factions still have a living member (and the
alive counters agree with the roster), check_game_over reports the game
terminated and announce_winner stores "draw"; and announce_winner names
the werewolves only in rosters where no non-werewolf is left alive. -/
theorem C10_parity_ends_in_draw (gs : GState)
    (hw : gs.aliveWerewolf = (livingWolfCount gs.players : Int))
    (hv : gs.aliveVillager = (livingVillagerCount gs.players : Int))
    (hge : livingVillagerCount gs.players ≤ livingWolfCount gs.players)
    (hw1 : 1 ≤ livingWolfCount gs.players)
    (hv1 : 1 ≤ livingVillagerCount gs.players) :
    checkGameOver gs = true ∧ announceWinnerName gs.players = "draw" ∧
    ∀ ps : List Player, announceWinnerName ps = "werewolf" → livingVillagerCount ps = 0 := by
  refine ⟨?_, ?_, ?_⟩
  · unfold checkGameOver
    have hle : gs.aliveVillager ≤ gs.aliveWerewolf := by
      rw [hw, hv]
      exact_mod_cast hge
    by_cases hz : gs.aliveWerewolf == 0 <;> simp [hz, hle]
  · unfold announceWinnerName
    have hwa : gs.players.any (fun p => isWolf p.role && p.role.isAlive) = true :=
      any_of_one_le_filter_length hw1
    have hva : gs.players.any (fun p => !(isWolf p.role) && p.role.isAlive) = true :=
      any_of_one_le_filter_length hv1
    simp [hwa, hva]
  · intro ps h
    unfold announceWinnerName at h
    by_cases hwa : ps.any (fun p => isWolf p.role && p.role.isAlive) <;>
      by_cases hva : ps.any (fun p => !(isWolf p.role) && p.role.isAlive) <;>
        simp [hwa, hva] at h
    exact filter_length_zero_of_any_false (Bool.eq_false_iff.mpr hva)

/-- C10, witness: two living wolves against two living villagers with
counters in sync terminate the game with winner "draw". -/
theorem C10_parity_witness :
    checkGameOver gsC10 = true ∧ announceWinnerName gsC10.players = "draw" ∧
    ∀ ps : List Player, announceWinnerName ps = "werewolf" → livingVillagerCount ps = 0 :=
  C10_parity_ends_in_draw gsC10 (by decide) (by decide) (by decide) (by decide) (by decide)

end AIWolf
